import Mathlib

/-!
Verification of the ecitationph-backend citation core against its specification.

The development shallowly embeds the TypeScript source:
* `citation.model.ts` — the `Citation` document and its `pre('save')` hook;
* `citations.helpers.ts` — the instance-method helpers (`markAsPaid`,
  `contestCitation`, `resolveContest`, `voidCitation`, `checkOverdue`,
  `updateStatus`) and the `createCitation` fine computation;
* `contest.model.ts` / `contest.helpers.ts` / `contest.controller.ts` — the
  contest workflow;
* `violations.model.ts` — the versioned violation rules and `createNewVersion`;
* the legacy `citations.controller.ts` endpoints.

JS numbers that hold money or dates are modelled as `Int`; Mongo ObjectIds as
`Nat`. `Date` comparisons become `Int` comparisons against an explicit `now`
parameter. Persisting a document (`await doc.save()`) is modelled as applying
the schema's `pre('save')` hook to the in-memory document, since the hook is
the only schema middleware that rewrites the fields the claims mention
(mongoose runs validation before user `pre('save')` hooks, so the values the
hook writes are persisted as-is).
-/

namespace ECitation

/-- Citation lifecycle status, from the `CitationStatus` enum in
`src/models/citation.model.ts`. -/
inductive CitStatus where
  | PENDING
  | PAID
  | PARTIALLY_PAID
  | OVERDUE
  | CONTESTED
  | DISMISSED
  | VOID
  deriving DecidableEq, Repr

/-- One violation line embedded in a citation (`IViolationItem` in
`citation.model.ts`). The historical-snapshot strings (`code`, `title`,
`description`) carry no behaviour and are omitted; `fineAmount` is the
computed fine and `offenseCount` the recorded offense ordinal. -/
structure ViolationItem where
  violationId : Nat
  fineAmount : Int
  offenseCount : Nat
  deriving DecidableEq, Repr

/-- The citation document (`ICitation` in `citation.model.ts`), restricted to
the fields the lifecycle logic reads or writes: identifiers, the violation
lines, the three money fields, status, due date and the void flag. Evidence,
actor and timestamp metadata fields are never read by any modelled branch and
are omitted. -/
structure Citation where
  id : Nat
  driverId : Nat
  violations : List ViolationItem
  totalAmount : Int
  amountPaid : Int
  amountDue : Int
  status : CitStatus
  dueDate : Int
  isVoid : Bool
  deriving DecidableEq, Repr

/-- `violations.reduce((sum, violation) => sum + violation.fineAmount, 0)` from
the `pre('save')` hook (and `calculateTotalAmount` in `citations.helpers.ts`). -/
def sumFines (vs : List ViolationItem) : Int :=
  vs.foldl (fun s v => s + v.fineAmount) 0

/-- First phase of `CitationSchema.pre('save')`: recompute `totalAmount` from
the violation lines when the array is non-empty, then recompute
`amountDue = totalAmount - amountPaid` (no clamping in the source). -/
def recomputeAmounts (c : Citation) : Citation :=
  let c1 := if c.violations.length > 0 then
      { c with totalAmount := sumFines c.violations }
    else c
  { c1 with amountDue := c1.totalAmount - c1.amountPaid }

/-- Second phase of `CitationSchema.pre('save')`: the payment-based status
update. `PAID` is only entered when the current status is `PENDING`; any
citation with `0 < amountPaid < totalAmount` is forced to `PARTIALLY_PAID`. -/
def applyPaymentStatus (c : Citation) : Citation :=
  if c.amountPaid ≥ c.totalAmount ∧ c.status = CitStatus.PENDING then
    { c with status := CitStatus.PAID }
  else if 0 < c.amountPaid ∧ c.amountPaid < c.totalAmount then
    { c with status := CitStatus.PARTIALLY_PAID }
  else c

/-- Third phase of `CitationSchema.pre('save')`: `dueDate < new Date()` while
the (already payment-updated) status is still `PENDING` yields `OVERDUE`. -/
def applyOverdueStatus (now : Int) (c : Citation) : Citation :=
  if c.dueDate < now ∧ c.status = CitStatus.PENDING then
    { c with status := CitStatus.OVERDUE }
  else c

/-- The full `CitationSchema.pre('save')` hook, i.e. what persisting a
citation does to it. -/
def preSave (now : Int) (c : Citation) : Citation :=
  applyOverdueStatus now (applyPaymentStatus (recomputeAmounts c))

/-- Recording a payment as described by the spec's payment scenario: the
payment amount is added to `amountPaid` and the citation is saved. The saving
step is the real `pre('save')` hook above; no working payment endpoint exists
in the source (see the `addPayment` development below), so the increment step
is taken from the claim's own description of the operation. -/
def recordPayment (now : Int) (c : Citation) (amount : Int) : Citation :=
  preSave now { c with amountPaid := c.amountPaid + amount }

/-- `markAsPaid` from `citations.helpers.ts`: sets `status = PAID` and
`amountDue = 0` directly, then saves (so the hook recomputes `amountDue`). -/
def markAsPaid (now : Int) (c : Citation) : Citation :=
  preSave now { c with status := CitStatus.PAID, amountDue := 0 }

/-- `contestCitation` from `citations.helpers.ts` (the legacy instance
method): sets `status = CONTESTED` and saves. Contest metadata fields
(`contestedAt`, `contestReason`, `contestedBy`) are outside the modelled
state. -/
def contestCitation (now : Int) (c : Citation) : Citation :=
  preSave now { c with status := CitStatus.CONTESTED }

/-- `voidCitation` from `citations.helpers.ts`: sets `status = VOID` and
`isVoid = true`, then saves. Void metadata (`voidReason`, `voidedBy`,
`voidedAt`) is outside the modelled state. -/
def voidCitation (now : Int) (c : Citation) : Citation :=
  preSave now { c with status := CitStatus.VOID, isVoid := true }

/-- `resolveContest` from `citations.helpers.ts` (legacy contest resolution on
the citation itself): approval dismisses, rejection reverts to
`PARTIALLY_PAID` when `amountPaid > 0` and `PENDING` otherwise; then saves. -/
def resolveContest (now : Int) (c : Citation) (approve : Bool) : Citation :=
  if approve then
    preSave now { c with status := CitStatus.DISMISSED }
  else
    preSave now
      { c with
        status := if 0 < c.amountPaid then CitStatus.PARTIALLY_PAID else CitStatus.PENDING }

/-- `checkOverdue` from `citations.helpers.ts`: past due and still `PENDING`
or `PARTIALLY_PAID`. -/
def checkOverdue (now : Int) (c : Citation) : Bool :=
  decide (c.dueDate < now) && (c.status == CitStatus.PENDING || c.status == CitStatus.PARTIALLY_PAID)

/-- `updateStatus` from `citations.helpers.ts`: a status re-evaluation that
first writes `OVERDUE` (and saves) when `checkOverdue` holds, then writes
`PAID` (and saves) when `amountPaid ≥ totalAmount`. Each `await
citation.save()` is the `pre('save')` hook. -/
def updateStatus (now : Int) (c : Citation) : Citation :=
  let c1 := if checkOverdue now c && !(c.status == CitStatus.OVERDUE) then
      preSave now { c with status := CitStatus.OVERDUE }
    else c
  if c1.amountPaid ≥ c1.totalAmount ∧ c1.status ≠ CitStatus.PAID then
    preSave now { c1 with status := CitStatus.PAID, amountDue := 0 }
  else c1

/-! ## Violation rules and the fine calculator -/

/-- Vehicle types, from the v1 `vehicle.model.ts` enum (`VehicleType`). Note
the fine computation in `createCitation` only recognises `PRIVATE` and
`FOR_HIRE`. -/
inductive VehicleType where
  | PRIVATE
  | FOR_HIRE
  | GOVERNMENT
  | DIPLOMATIC
  deriving DecidableEq, Repr

/-- Fine-structure tag of a violation rule (`'FIXED' | 'PROGRESSIVE'` in
`violations.model.ts`). -/
inductive FineStructure where
  | FIXED
  | PROGRESSIVE
  deriving DecidableEq, Repr

/-- The `IOffensePenalty` shape from `violations.model.ts`: `firstOffense` is
required, the escalation tiers are optional. Amounts are `Int` (JS numbers);
a tier holding `some 0` is JS-falsy exactly like an absent tier, which the
truthiness helpers below reproduce. -/
structure OffensePenalty where
  firstOffense : Int
  secondOffense : Option Int := none
  thirdOffense : Option Int := none
  subsequentOffense : Option Int := none
  deriving DecidableEq, Repr

/-- JS truthiness of an optional number: `undefined` and `0` are falsy. -/
def jsTruthy : Option Int → Bool
  | none => false
  | some v => v != 0

/-- JS `a || b` for an optional number `a` and a number `b`. -/
def jsOr (a : Option Int) (b : Int) : Int :=
  match a with
  | none => b
  | some v => if v != 0 then v else b

/-- The `IFine` shape from `violations.model.ts`, flattened over its
`private`/`forHire` × `driver`/`mvOwner`-or-`operator` axes. -/
structure FixedFine where
  privateDriver : Int
  privateMvOwner : Int
  forHireDriver : Int
  forHireOperator : Int
  deriving DecidableEq, Repr

/-- The progressive-fine shape from `violations.model.ts`, flattened over the
same axes. -/
structure ProgressiveFine where
  privateDriver : OffensePenalty
  privateMvOwner : OffensePenalty
  forHireDriver : OffensePenalty
  forHireOperator : OffensePenalty
  deriving DecidableEq, Repr

/-- A violation rule document (`IViolation` in `violations.model.ts`):
versioning identity plus the fine schedule. `violationGroupId` groups the
versions of one rule; `supersededBy` points at the successor version. -/
structure ViolationRule where
  id : Nat
  code : String
  violationGroupId : Nat
  version : Nat
  title : String
  fineStructure : FineStructure
  fixedFine : Option FixedFine := none
  progressiveFine : Option ProgressiveFine := none
  isActive : Bool
  supersededBy : Option Nat := none
  effectiveFrom : Int
  effectiveUntil : Option Int := none
  deriving DecidableEq, Repr

/-- Tier selection for a progressive schedule, from `createCitation` in
`citations.helpers.ts` (lines 472-486): ordinal 1 takes `firstOffense`
unconditionally; ordinals 2 and 3 take their tier only when it is truthy;
every remaining case takes `subsequentOffense` when truthy; otherwise the
fallback is `thirdOffense || secondOffense || firstOffense`. -/
def progressiveFineFor (s : OffensePenalty) (offenseCount : Nat) : Int :=
  if offenseCount == 1 then s.firstOffense
  else if offenseCount == 2 && jsTruthy s.secondOffense then s.secondOffense.getD 0
  else if offenseCount == 3 && jsTruthy s.thirdOffense then s.thirdOffense.getD 0
  else if jsTruthy s.subsequentOffense then s.subsequentOffense.getD 0
  else jsOr s.thirdOffense (jsOr s.secondOffense s.firstOffense)

/-- The `vehicle.vehicleType === "PRIVATE" ? …private.driver : …forHire.driver`
ternary in `createCitation`: every non-`PRIVATE` vehicle type selects the
for-hire driver schedule. -/
def scheduleFor (vt : VehicleType) (pf : ProgressiveFine) : OffensePenalty :=
  if vt = VehicleType.PRIVATE then pf.privateDriver else pf.forHireDriver

/-- The fixed-fine selection in `createCitation`: `fineAmount` starts at `0`
and is only assigned for `PRIVATE` and `FOR_HIRE` vehicles. -/
def fixedFineFor (vt : VehicleType) (ff : FixedFine) : Int :=
  if vt = VehicleType.PRIVATE then ff.privateDriver
  else if vt = VehicleType.FOR_HIRE then ff.forHireDriver
  else 0

/-! ## Offense-history counting -/

/-- The status filter of the prior-citation query in `createCitation`:
`status: { $in: [PAID, PENDING, OVERDUE, PARTIALLY_PAID] }`. -/
def offenseStatusSet (s : CitStatus) : Bool :=
  s == CitStatus.PAID || s == CitStatus.PENDING ||
    s == CitStatus.OVERDUE || s == CitStatus.PARTIALLY_PAID

/-- Number of lines of a citation referencing a given violation identity
(the `citation.violations.filter(v => v.violationId === …).length` reduce
step in `createCitation`). -/
def countLines (vid : Nat) (c : Citation) : Nat :=
  (c.violations.filter (fun v => v.violationId == vid)).length

/-- The `Citation.find` query of `createCitation`: same driver, at least one
line for the violation, status in the offense-status set, not voided. -/
def offenseQueryMatches (driverId vid : Nat) (c : Citation) : Bool :=
  c.driverId == driverId && c.violations.any (fun v => v.violationId == vid) &&
    offenseStatusSet c.status && !c.isVoid

/-- The offense ordinal assigned to a new progressive line: the reduce over
the queried citations of their matching-line counts, plus 1 for the current
offense. -/
def offenseOrdinal (db : List Citation) (driverId vid : Nat) : Nat :=
  (db.filter (offenseQueryMatches driverId vid)).foldl
    (fun acc c => acc + countLines vid c) 0 + 1

/-- The per-violation fine computation of `createCitation`
(`citations.helpers.ts` lines 401-502): `fineAmount` starts at `0` and
`offenseCount` at `1`; the `FIXED` branch requires a truthy `fixedFine`, the
`PROGRESSIVE` branch requires a truthy `progressiveFine` and computes the
offense ordinal from the prior-citation store `db`; in every other case the
line is created with the initial `fineAmount = 0`. -/
def computeViolationItem (db : List Citation) (driverId : Nat) (vt : VehicleType)
    (v : ViolationRule) : ViolationItem :=
  match v.fineStructure, v.fixedFine, v.progressiveFine with
  | FineStructure.FIXED, some ff, _ =>
      { violationId := v.id, fineAmount := fixedFineFor vt ff, offenseCount := 1 }
  | FineStructure.PROGRESSIVE, _, some pf =>
      let n := offenseOrdinal db driverId v.id
      { violationId := v.id
        fineAmount := progressiveFineFor (scheduleFor vt pf) n
        offenseCount := n }
  | _, _, _ => { violationId := v.id, fineAmount := 0, offenseCount := 1 }

/-- Citation creation (`createCitation` in `citations.helpers.ts`): maps the
resolved violations to lines, totals their fines, builds the document in
`PENDING` with `amountPaid = 0`, and saves it (running the hook). -/
def createCitationOp (now : Int) (db : List Citation) (newId driverId : Nat)
    (vt : VehicleType) (vs : List ViolationRule) (dueDate : Int) : Citation :=
  let items := vs.map (computeViolationItem db driverId vt)
  let total := items.foldl (fun s it => s + it.fineAmount) 0
  preSave now
    { id := newId, driverId := driverId, violations := items, totalAmount := total,
      amountPaid := 0, amountDue := total, status := CitStatus.PENDING,
      dueDate := dueDate, isVoid := false }

/-! ## Contest workflow -/

/-- Contest status, from the `ContestStatus` enum in `contest.model.ts`. -/
inductive ContStatus where
  | SUBMITTED
  | UNDER_REVIEW
  | APPROVED
  | REJECTED
  | WITHDRAWN
  deriving DecidableEq, Repr

/-- A contest document (`IContest` in `contest.model.ts`), restricted to the
fields the workflow transitions read or write. `statusHistory` keeps the
statuses of the append-only audit log (actors and timestamps carry no
branching behaviour and are omitted). -/
structure Contest where
  id : Nat
  citationId : Nat
  contestedBy : Nat
  status : ContStatus
  isActive : Bool
  statusHistory : List ContStatus
  deriving DecidableEq, Repr

/-- `submitContest` from `contest.helpers.ts`: requires the citation to exist,
rejects `PAID`/`VOID`/`DISMISSED` statuses, rejects when an active contest
already exists for the citation, then creates the contest in `SUBMITTED`
(whose save pushes the initial history entry) and saves the citation with
status `CONTESTED` (running the citation hook). -/
def submitContest (now : Int) (cit? : Option Citation) (contests : List Contest)
    (newId contestedBy : Nat) : Except String (Contest × Citation) :=
  match cit? with
  | none => Except.error "Citation not found"
  | some citation =>
    if citation.status = CitStatus.PAID then
      Except.error "Cannot contest a paid citation"
    else if citation.status = CitStatus.VOID then
      Except.error "Cannot contest a voided citation"
    else if citation.status = CitStatus.DISMISSED then
      Except.error "Cannot contest a dismissed citation"
    else if contests.any (fun ct => ct.citationId == citation.id && ct.isActive) then
      Except.error "An active contest already exists for this citation"
    else
      Except.ok
        ({ id := newId, citationId := citation.id, contestedBy := contestedBy,
           status := ContStatus.SUBMITTED, isActive := true,
           statusHistory := [ContStatus.SUBMITTED] },
         preSave now { citation with status := CitStatus.CONTESTED })

/-- The legacy `PUT /:id/contest` endpoint (`contestCitation` in the legacy
`citations.controller.ts`): it guards only on `isVoid`, an existing
`CONTESTED` status and `PAID`, then calls the `contestCitation` helper. It
creates no contest document and does not reject `DISMISSED` citations. -/
def contestCitationEndpoint (now : Int) (cit? : Option Citation) :
    Except String Citation :=
  match cit? with
  | none => Except.error "Citation not found"
  | some citation =>
    if citation.isVoid then
      Except.error "Cannot contest a voided citation"
    else if citation.status = CitStatus.CONTESTED then
      Except.error "Citation is already contested"
    else if citation.status = CitStatus.PAID then
      Except.error "Cannot contest a paid citation"
    else Except.ok (contestCitation now citation)

/-- `approveContest` from `contest.controller.ts` composed with the
`approveContest` helper: the resolution must be non-empty after trimming
(`resolution` here stands for the already-trimmed string, so the
`resolution.trim().length === 0` guard is emptiness), the contest must exist,
and the terminal-status guard rejects only `APPROVED` and `REJECTED`. On
success the contest becomes `APPROVED` (history appended) and the citation,
when found, is saved as `DISMISSED`. An error result means nothing was
written. -/
def approveContest (now : Int) (ct? : Option Contest) (cit? : Option Citation)
    (resolution : String) : Except String (Contest × Option Citation) :=
  if resolution = "" then Except.error "Resolution is required"
  else match ct? with
  | none => Except.error "Contest not found"
  | some ct =>
    if ct.status = ContStatus.APPROVED ∨ ct.status = ContStatus.REJECTED then
      Except.error "Contest has already been resolved"
    else
      let ct2 : Contest :=
        { ct with status := ContStatus.APPROVED,
                  statusHistory := ct.statusHistory ++ [ContStatus.APPROVED] }
      Except.ok
        (ct2, cit?.map (fun c => preSave now { c with status := CitStatus.DISMISSED }))

/-- `rejectContest` from `contest.controller.ts` composed with the
`rejectContest` helper: same guards as approval (with `resolution` again
standing for the trimmed string); on success the contest becomes `REJECTED`
and the citation, when found, is saved with the payment-derived revert
status. -/
def rejectContest (now : Int) (ct? : Option Contest) (cit? : Option Citation)
    (resolution : String) : Except String (Contest × Option Citation) :=
  if resolution = "" then Except.error "Resolution is required"
  else match ct? with
  | none => Except.error "Contest not found"
  | some ct =>
    if ct.status = ContStatus.APPROVED ∨ ct.status = ContStatus.REJECTED then
      Except.error "Contest has already been resolved"
    else
      let ct2 : Contest :=
        { ct with status := ContStatus.REJECTED,
                  statusHistory := ct.statusHistory ++ [ContStatus.REJECTED] }
      Except.ok
        (ct2,
         cit?.map (fun c =>
           preSave now
             { c with
               status :=
                 if 0 < c.amountPaid then CitStatus.PARTIALLY_PAID
                 else CitStatus.PENDING }))

/-- `withdrawContest` from `contest.controller.ts` composed with the
`withdrawContest` helper: only the submitter may withdraw; `APPROVED` and
`REJECTED` are rejected as resolved, `WITHDRAWN` as already withdrawn; on
success the contest becomes `WITHDRAWN` and the citation, when found, is
saved with the payment-derived revert status. -/
def withdrawContest (now : Int) (ct? : Option Contest) (cit? : Option Citation)
    (userId : Nat) : Except String (Contest × Option Citation) :=
  match ct? with
  | none => Except.error "Contest not found"
  | some ct =>
    if ct.contestedBy ≠ userId then
      Except.error "You can only withdraw your own contests"
    else if ct.status = ContStatus.APPROVED ∨ ct.status = ContStatus.REJECTED then
      Except.error "Cannot withdraw a resolved contest"
    else if ct.status = ContStatus.WITHDRAWN then
      Except.error "Contest is already withdrawn"
    else
      let ct2 : Contest :=
        { ct with status := ContStatus.WITHDRAWN,
                  statusHistory := ct.statusHistory ++ [ContStatus.WITHDRAWN] }
      Except.ok
        (ct2,
         cit?.map (fun c =>
           preSave now
             { c with
               status :=
                 if 0 < c.amountPaid then CitStatus.PARTIALLY_PAID
                 else CitStatus.PENDING }))

/-! ## Rule versioning -/

/-- An update payload for `createNewVersion`. The update endpoint
(`updateViolation` in `violations.controller.ts`) forwards `req.body`
unfiltered, so the payload may contain any rule field; `none` means the field
is absent from the payload. `effectiveUntil`/`supersededBy` use a nested
`Option` so a payload can explicitly carry a value for them. -/
structure RuleUpdates where
  code : Option String := none
  title : Option String := none
  fineStructure : Option FineStructure := none
  fixedFine : Option (Option FixedFine) := none
  progressiveFine : Option (Option ProgressiveFine) := none
  version : Option Nat := none
  isActive : Option Bool := none
  supersededBy : Option (Option Nat) := none
  effectiveFrom : Option Int := none
  effectiveUntil : Option (Option Int) := none
  violationGroupId : Option Nat := none
  deriving DecidableEq, Repr

/-- `createNewVersion` from `violations.model.ts`: the current rule is
retired (`isActive = false`, `effectiveUntil = now`, `supersededBy` set to the
new id) and the new rule is built by the object spread
`{ ...this.toObject(), _id, version: this.version + 1, ...updates,
violationGroupId: this.violationGroupId, supersededBy: undefined,
effectiveFrom: now, effectiveUntil: undefined, isActive: true, createdBy }`.
Fields of `updates` therefore override the incremented `version`, while the
trailing fixed fields override anything `updates` said about `groupId`,
`supersededBy`, `effectiveFrom`, `effectiveUntil` and `isActive`. At spread
time the receiver is already retired, which the `getD` defaults reflect.
Returns `(retired old rule, new rule)`. -/
def createNewVersion (now : Int) (newId : Nat) (old : ViolationRule)
    (u : RuleUpdates) : ViolationRule × ViolationRule :=
  let retired : ViolationRule :=
    { old with isActive := false, effectiveUntil := some now, supersededBy := some newId }
  let afterSpread : ViolationRule :=
    { id := newId
      code := u.code.getD old.code
      title := u.title.getD old.title
      fineStructure := u.fineStructure.getD old.fineStructure
      fixedFine := u.fixedFine.getD old.fixedFine
      progressiveFine := u.progressiveFine.getD old.progressiveFine
      violationGroupId := u.violationGroupId.getD old.violationGroupId
      version := u.version.getD (old.version + 1)
      isActive := u.isActive.getD false
      supersededBy := u.supersededBy.getD old.supersededBy
      effectiveFrom := u.effectiveFrom.getD old.effectiveFrom
      effectiveUntil := u.effectiveUntil.getD (some now) }
  let newRule : ViolationRule :=
    { afterSpread with
      violationGroupId := old.violationGroupId
      supersededBy := none
      effectiveFrom := now
      effectiveUntil := none
      isActive := true }
  (retired, newRule)

/-! ## The missing payment implementation -/

/-- A payment record (`IPaymentRecord` in `citation.model.ts`), reduced to its
amount; the method that would consume it never runs. -/
structure PaymentRecord where
  amount : Int
  deriving DecidableEq, Repr

/-- The exported names of `citations.helpers.ts` (the module
`citation.model.ts` imports as `CitationHelpers`). There is no `addPayment`
export. -/
def citationHelpersExports : List String :=
  ["generateCitationNo", "getByDriver", "getByEnforcer", "getOverdueCitations",
   "getStatistics", "searchCitations", "calculateTotalAmount", "markAsPaid",
   "contestCitation", "resolveContest", "voidCitation", "checkOverdue",
   "updateStatus", "getCitationSummary", "createCitation"]

/-- The exported names of the legacy `citations.controller.ts`, from which the
legacy router takes its `POST /:id/payment` handler; the `addPayment` export
is commented out in the source. -/
def citationsControllerExports : List String :=
  ["createCitation", "getAllCitations", "getCitationById", "getCitationByNumber",
   "searchCitations", "getCitationsByDriver", "getCitationsByEnforcer",
   "getOverdueCitations", "contestCitation", "resolveContest", "voidCitation",
   "getStatistics", "updateCitation"]

/-- The property access `CitationHelpers.addPayment` performed by
`CitationSchema.methods.addPayment` (`citation.model.ts` line 403):
`citations.helpers.ts` defines no such export, so in JS the access yields
`undefined`. -/
def citationHelpersAddPayment : Option (Citation → PaymentRecord → Citation) :=
  none

/-- Error raised by calling an undefined module member
(`TypeError: … is not a function`). -/
inductive JsCallError where
  | notAFunction
  deriving DecidableEq, Repr

/-- The `addPayment` instance method of the citation schema: it delegates to
`CitationHelpers.addPayment`, which is `undefined`, so every invocation throws
before touching the citation. -/
def methodAddPayment (c : Citation) (p : PaymentRecord) :
    Except JsCallError Citation :=
  match citationHelpersAddPayment with
  | none => Except.error JsCallError.notAFunction
  | some f => Except.ok (f c p)

/-! ## Basic facts about the save hook -/

theorem recomputeAmounts_amountPaid (c : Citation) :
    (recomputeAmounts c).amountPaid = c.amountPaid := by
  unfold recomputeAmounts; split <;> rfl

theorem recomputeAmounts_status (c : Citation) :
    (recomputeAmounts c).status = c.status := by
  unfold recomputeAmounts; split <;> rfl

theorem recomputeAmounts_dueDate (c : Citation) :
    (recomputeAmounts c).dueDate = c.dueDate := by
  unfold recomputeAmounts; split <;> rfl

theorem recomputeAmounts_violations (c : Citation) :
    (recomputeAmounts c).violations = c.violations := by
  unfold recomputeAmounts; split <;> rfl

theorem recomputeAmounts_isVoid (c : Citation) :
    (recomputeAmounts c).isVoid = c.isVoid := by
  unfold recomputeAmounts; split <;> rfl

theorem recomputeAmounts_amountDue (c : Citation) :
    (recomputeAmounts c).amountDue = (recomputeAmounts c).totalAmount - c.amountPaid := by
  unfold recomputeAmounts; split <;> rfl

theorem recomputeAmounts_totalAmount (c : Citation) (h : c.violations ≠ []) :
    (recomputeAmounts c).totalAmount = sumFines c.violations := by
  unfold recomputeAmounts
  split
  · rfl
  · next hlen => simp at hlen; exact absurd hlen h

theorem applyPaymentStatus_fields (c : Citation) :
    (applyPaymentStatus c).totalAmount = c.totalAmount ∧
    (applyPaymentStatus c).amountPaid = c.amountPaid ∧
    (applyPaymentStatus c).amountDue = c.amountDue ∧
    (applyPaymentStatus c).violations = c.violations ∧
    (applyPaymentStatus c).dueDate = c.dueDate ∧
    (applyPaymentStatus c).isVoid = c.isVoid := by
  unfold applyPaymentStatus; split_ifs <;> exact ⟨rfl, rfl, rfl, rfl, rfl, rfl⟩

theorem applyOverdueStatus_fields (now : Int) (c : Citation) :
    (applyOverdueStatus now c).totalAmount = c.totalAmount ∧
    (applyOverdueStatus now c).amountPaid = c.amountPaid ∧
    (applyOverdueStatus now c).amountDue = c.amountDue ∧
    (applyOverdueStatus now c).violations = c.violations ∧
    (applyOverdueStatus now c).dueDate = c.dueDate ∧
    (applyOverdueStatus now c).isVoid = c.isVoid := by
  unfold applyOverdueStatus; split_ifs <;> exact ⟨rfl, rfl, rfl, rfl, rfl, rfl⟩

theorem applyPaymentStatus_status (c : Citation) :
    (applyPaymentStatus c).status =
      if c.amountPaid ≥ c.totalAmount ∧ c.status = CitStatus.PENDING then CitStatus.PAID
      else if 0 < c.amountPaid ∧ c.amountPaid < c.totalAmount then CitStatus.PARTIALLY_PAID
      else c.status := by
  unfold applyPaymentStatus; split_ifs <;> rfl

theorem applyOverdueStatus_status (now : Int) (c : Citation) :
    (applyOverdueStatus now c).status =
      if c.dueDate < now ∧ c.status = CitStatus.PENDING then CitStatus.OVERDUE
      else c.status := by
  unfold applyOverdueStatus; split_ifs <;> rfl

theorem preSave_amountPaid (now : Int) (c : Citation) :
    (preSave now c).amountPaid = c.amountPaid := by
  unfold preSave
  rw [(applyOverdueStatus_fields now _).2.1, (applyPaymentStatus_fields _).2.1,
    recomputeAmounts_amountPaid]

theorem preSave_violations (now : Int) (c : Citation) :
    (preSave now c).violations = c.violations := by
  unfold preSave
  rw [(applyOverdueStatus_fields now _).2.2.2.1, (applyPaymentStatus_fields _).2.2.2.1,
    recomputeAmounts_violations]

theorem preSave_dueDate (now : Int) (c : Citation) :
    (preSave now c).dueDate = c.dueDate := by
  unfold preSave
  rw [(applyOverdueStatus_fields now _).2.2.2.2.1, (applyPaymentStatus_fields _).2.2.2.2.1,
    recomputeAmounts_dueDate]

theorem preSave_isVoid (now : Int) (c : Citation) :
    (preSave now c).isVoid = c.isVoid := by
  unfold preSave
  rw [(applyOverdueStatus_fields now _).2.2.2.2.2, (applyPaymentStatus_fields _).2.2.2.2.2,
    recomputeAmounts_isVoid]

theorem preSave_totalAmount_eq (now : Int) (c : Citation) :
    (preSave now c).totalAmount = (recomputeAmounts c).totalAmount := by
  unfold preSave
  rw [(applyOverdueStatus_fields now _).1, (applyPaymentStatus_fields _).1]

theorem preSave_totalAmount (now : Int) (c : Citation) (h : c.violations ≠ []) :
    (preSave now c).totalAmount = sumFines c.violations := by
  rw [preSave_totalAmount_eq, recomputeAmounts_totalAmount c h]

theorem preSave_amountDue (now : Int) (c : Citation) :
    (preSave now c).amountDue = (preSave now c).totalAmount - c.amountPaid := by
  unfold preSave
  rw [(applyOverdueStatus_fields now _).2.2.1, (applyPaymentStatus_fields _).2.2.1,
    (applyOverdueStatus_fields now _).1, (applyPaymentStatus_fields _).1,
    recomputeAmounts_amountDue]

/-- Closed-form description of what one save does to the status: `PAID` only
from `PENDING` with the recomputed total covered, otherwise `PARTIALLY_PAID`
whenever `0 < amountPaid < total`, otherwise `OVERDUE` for a past-due
still-`PENDING` citation, otherwise unchanged. -/
theorem preSave_status (now : Int) (c : Citation) :
    (preSave now c).status =
      if c.amountPaid ≥ (recomputeAmounts c).totalAmount ∧ c.status = CitStatus.PENDING then
        CitStatus.PAID
      else if 0 < c.amountPaid ∧ c.amountPaid < (recomputeAmounts c).totalAmount then
        CitStatus.PARTIALLY_PAID
      else if c.dueDate < now ∧ c.status = CitStatus.PENDING then CitStatus.OVERDUE
      else c.status := by
  unfold preSave
  rw [applyOverdueStatus_status, applyPaymentStatus_status,
    (applyPaymentStatus_fields _).2.2.2.2.1,
    recomputeAmounts_amountPaid, recomputeAmounts_status, recomputeAmounts_dueDate]
  by_cases h1 : c.amountPaid ≥ (recomputeAmounts c).totalAmount ∧ c.status = CitStatus.PENDING <;>
    by_cases h2 : 0 < c.amountPaid ∧ c.amountPaid < (recomputeAmounts c).totalAmount <;>
      simp [h1, h2]

/-! ## Concrete fixtures -/

/-- A single 1500-peso violation line, as in the spec's running example. -/
def lineFine1500 : ViolationItem :=
  { violationId := 1, fineAmount := 1500, offenseCount := 1 }

/-- The spec's running example: a freshly issued citation with
`totalAmount = 1500`, nothing paid yet, due in the future (at `now = 0`). -/
def citPending1500 : Citation :=
  { id := 1, driverId := 1, violations := [lineFine1500], totalAmount := 1500,
    amountPaid := 0, amountDue := 1500, status := CitStatus.PENDING,
    dueDate := 100, isVoid := false }

/-! ## C1 — payment recording and the PAID transition -/

/-- C1 counterexample: on a `PENDING` citation with `totalAmount = 1500`,
recording 750 and saving yields `PARTIALLY_PAID` with `amountDue = 750` as
claimed, but recording a further 750 (so `amountPaid = 1500 ≥ totalAmount`)
and saving leaves the status `PARTIALLY_PAID` — not `PAID` as the claim
states — because the hook's `PAID` branch requires the status to still be
`PENDING`. `amountDue` does reach 0. -/
theorem c1_counterexample :
    (recordPayment 0 citPending1500 750).status = CitStatus.PARTIALLY_PAID ∧
    (recordPayment 0 citPending1500 750).amountDue = 750 ∧
    (recordPayment 0 (recordPayment 0 citPending1500 750) 750).amountDue = 0 ∧
    (recordPayment 0 (recordPayment 0 citPending1500 750) 750).status =
      CitStatus.PARTIALLY_PAID ∧
    (recordPayment 0 (recordPayment 0 citPending1500 750) 750).status ≠
      CitStatus.PAID := by
  decide

/-- C1 (amended): recording a payment (`amountPaid += p`, then save) on a
`PENDING` or `PARTIALLY_PAID` citation recomputes
`amountDue = totalAmount - amountPaid`, and results in `PAID` exactly when the
citation was still `PENDING` and the new `amountPaid` covers the recomputed
total; from `PARTIALLY_PAID` the status always remains `PARTIALLY_PAID`, even
when the payment brings `amountPaid` up to `totalAmount` (in which case only
`amountDue` drops to 0). -/
theorem c1_amended (now p : Int) (c : Citation)
    (hs : c.status = CitStatus.PENDING ∨ c.status = CitStatus.PARTIALLY_PAID) :
    ((recordPayment now c p).status = CitStatus.PAID ↔
      c.status = CitStatus.PENDING ∧
        (recordPayment now c p).totalAmount ≤ c.amountPaid + p) ∧
    (recordPayment now c p).amountDue =
      (recordPayment now c p).totalAmount - (c.amountPaid + p) ∧
    (c.status = CitStatus.PARTIALLY_PAID →
      (recordPayment now c p).status = CitStatus.PARTIALLY_PAID) := by
  unfold recordPayment
  have hst := preSave_status now { c with amountPaid := c.amountPaid + p }
  have hdu := preSave_amountDue now { c with amountPaid := c.amountPaid + p }
  have htt := preSave_totalAmount_eq now { c with amountPaid := c.amountPaid + p }
  refine ⟨?_, ?_, ?_⟩
  · rw [hst, htt]
    dsimp only
    split_ifs with hA hB hD <;> rcases hs with h | h <;> simp_all
  · exact hdu
  · intro h
    rw [hst]
    have h2 : ¬(c.amountPaid + p ≥
        (recomputeAmounts { c with amountPaid := c.amountPaid + p }).totalAmount ∧
          ({ c with amountPaid := c.amountPaid + p } : Citation).status =
            CitStatus.PENDING) := by
      simp [h]
    rw [if_neg h2]
    by_cases h3 : 0 < c.amountPaid + p ∧ c.amountPaid + p <
        (recomputeAmounts { c with amountPaid := c.amountPaid + p }).totalAmount <;>
      simp_all

/-- C1 amended witness at the spec's concrete first payment. -/
theorem c1_amended_witness :
    ((recordPayment 0 citPending1500 750).status = CitStatus.PAID ↔
      citPending1500.status = CitStatus.PENDING ∧
        (recordPayment 0 citPending1500 750).totalAmount ≤
          citPending1500.amountPaid + 750) ∧
    (recordPayment 0 citPending1500 750).amountDue =
      (recordPayment 0 citPending1500 750).totalAmount -
        (citPending1500.amountPaid + 750) ∧
    (citPending1500.status = CitStatus.PARTIALLY_PAID →
      (recordPayment 0 citPending1500 750).status = CitStatus.PARTIALLY_PAID) :=
  c1_amended 0 750 citPending1500 (Or.inl rfl)

/-! ## C4 — the totals invariant after every save -/

/-- The spec's §8 invariant restricted to the part the hook actually
guarantees: `totalAmount` is the sum of the line fines and `amountDue` is the
unclamped difference `totalAmount - amountPaid`. -/
def amountsRecomputed (c : Citation) : Prop :=
  c.totalAmount = sumFines c.violations ∧
  c.amountDue = c.totalAmount - c.amountPaid

theorem preSave_amountsRecomputed (now : Int) (c : Citation)
    (h : c.violations ≠ []) : amountsRecomputed (preSave now c) := by
  refine ⟨?_, ?_⟩
  · rw [preSave_totalAmount now c h, preSave_violations]
  · rw [preSave_amountDue, preSave_amountPaid]

/-- C4 counterexample: saving a citation whose `amountPaid` exceeds its total
(the claim's "payment recording" with an overpayment of 2000 against 1500)
persists `amountDue = -500`; the claimed `max(0, totalAmount - amountPaid)`
would be 0, so `amountDue` is not clamped and can go negative. -/
theorem c4_counterexample :
    (recordPayment 0 citPending1500 2000).amountDue = -500 ∧
    (recordPayment 0 citPending1500 2000).amountDue ≠
      max 0 ((recordPayment 0 citPending1500 2000).totalAmount -
        (recordPayment 0 citPending1500 2000).amountPaid) := by
  decide

/-- C4 (amended): after every operation that saves a citation with at least
one violation line — a bare save (creation and the notes/images/dueDate field
update), payment recording, `markAsPaid` (whose direct `amountDue = 0` write
is overwritten by the recomputation), legacy contest submission and
resolution, and void — the persisted citation satisfies
`totalAmount = Σ lines.fineAmount` and `amountDue = totalAmount - amountPaid`
exactly, with no clamping; `amountDue` is therefore non-negative only when
`amountPaid ≤ totalAmount`. -/
theorem c4_amended (now p : Int) (c : Citation) (approve : Bool)
    (h : c.violations ≠ []) :
    amountsRecomputed (preSave now c) ∧
    amountsRecomputed (recordPayment now c p) ∧
    amountsRecomputed (markAsPaid now c) ∧
    amountsRecomputed (contestCitation now c) ∧
    amountsRecomputed (voidCitation now c) ∧
    amountsRecomputed (resolveContest now c approve) ∧
    (markAsPaid now c).amountDue = sumFines c.violations - c.amountPaid ∧
    (c.amountPaid ≤ sumFines c.violations → 0 ≤ (preSave now c).amountDue) := by
  refine ⟨preSave_amountsRecomputed now c h, ?_, ?_, ?_, ?_, ?_, ?_, ?_⟩
  · exact preSave_amountsRecomputed now _ h
  · exact preSave_amountsRecomputed now _ h
  · exact preSave_amountsRecomputed now _ h
  · exact preSave_amountsRecomputed now _ h
  · unfold resolveContest
    split <;> exact preSave_amountsRecomputed now _ h
  · unfold markAsPaid
    rw [preSave_amountDue now { c with status := CitStatus.PAID, amountDue := 0 },
      preSave_totalAmount now { c with status := CitStatus.PAID, amountDue := 0 } h]
  · intro hle
    rw [preSave_amountDue, preSave_totalAmount now c h]
    omega

/-- C4 amended witness at the concrete 1500-peso citation. -/
theorem c4_amended_witness :
    amountsRecomputed (preSave 0 citPending1500) ∧
    amountsRecomputed (recordPayment 0 citPending1500 750) ∧
    amountsRecomputed (markAsPaid 0 citPending1500) ∧
    amountsRecomputed (contestCitation 0 citPending1500) ∧
    amountsRecomputed (voidCitation 0 citPending1500) ∧
    amountsRecomputed (resolveContest 0 citPending1500 false) ∧
    (markAsPaid 0 citPending1500).amountDue =
      sumFines citPending1500.violations - citPending1500.amountPaid ∧
    (citPending1500.amountPaid ≤ sumFines citPending1500.violations →
      0 ≤ (preSave 0 citPending1500).amountDue) :=
  c4_amended 0 750 citPending1500 false (by decide)

/-! ## C8 — when a status re-evaluation produces OVERDUE -/

theorem recomputeAmounts_totalAmount_expr (c : Citation) :
    (recomputeAmounts c).totalAmount =
      if c.violations.length > 0 then sumFines c.violations else c.totalAmount := by
  unfold recomputeAmounts; split <;> simp_all

/-- Saving a citation whose status is not `PENDING` can only rewrite the
status to `PARTIALLY_PAID` (when `0 < amountPaid < total`); it can neither
reach `PAID` nor `OVERDUE`. -/
theorem preSave_status_of_ne_pending (now : Int) (c : Citation)
    (h : c.status ≠ CitStatus.PENDING) :
    (preSave now c).status =
      if 0 < c.amountPaid ∧ c.amountPaid < (recomputeAmounts c).totalAmount then
        CitStatus.PARTIALLY_PAID
      else c.status := by
  rw [preSave_status]
  split_ifs <;> simp_all

/-- The `PAID`-and-save write performed by `markAsPaid` and by the second
branch of `updateStatus` never produces `OVERDUE`. -/
theorem preSave_paid_write_not_overdue (now : Int) (d : Citation) :
    (preSave now { d with status := CitStatus.PAID, amountDue := 0 }).status ≠
      CitStatus.OVERDUE := by
  rw [preSave_status_of_ne_pending now _ (by simp)]
  split_ifs <;> simp

/-- C8: for citations in the states the code can actually produce (`PENDING`
only with nothing paid, `PARTIALLY_PAID` only with something paid, a positive
recomputed total), both due-date re-evaluations — a bare save running the
`pre('save')` hook, and the `updateStatus` helper — persist `OVERDUE` exactly
when the citation is still `PENDING` and `now` is past the due date. In
particular a `PAID`, `PARTIALLY_PAID`, `CONTESTED`, `DISMISSED` or `VOID`
citation is never transitioned to `OVERDUE`: the transient `OVERDUE` that
`updateStatus` writes for a past-due `PARTIALLY_PAID` citation is rewritten
back to `PARTIALLY_PAID` by the hook in the very save that persists it. -/
theorem c8_confirmed (now : Int) (c : Citation)
    (h1 : c.status = CitStatus.PENDING → c.amountPaid = 0)
    (h2 : c.status = CitStatus.PARTIALLY_PAID → 0 < c.amountPaid)
    (hT : 0 < (recomputeAmounts c).totalAmount)
    (hno : c.status ≠ CitStatus.OVERDUE) :
    ((preSave now c).status = CitStatus.OVERDUE ↔
      c.status = CitStatus.PENDING ∧ c.dueDate < now) ∧
    ((updateStatus now c).status = CitStatus.OVERDUE ↔
      c.status = CitStatus.PENDING ∧ c.dueDate < now) := by
  have hTe : ∀ s : CitStatus,
      (recomputeAmounts { c with status := s }).totalAmount =
        (recomputeAmounts c).totalAmount := by
    intro s
    rw [recomputeAmounts_totalAmount_expr, recomputeAmounts_totalAmount_expr]
  have hs1 : (preSave now { c with status := CitStatus.OVERDUE }).status =
      if 0 < c.amountPaid ∧ c.amountPaid < (recomputeAmounts c).totalAmount then
        CitStatus.PARTIALLY_PAID
      else CitStatus.OVERDUE := by
    rw [preSave_status_of_ne_pending now _ (by simp)]
    dsimp only
    rw [hTe]
  have hp1 : (preSave now { c with status := CitStatus.OVERDUE }).amountPaid =
      c.amountPaid := preSave_amountPaid now _
  have ht1 : (preSave now { c with status := CitStatus.OVERDUE }).totalAmount =
      (recomputeAmounts c).totalAmount := by
    rw [preSave_totalAmount_eq]; exact hTe _
  constructor
  · rw [preSave_status]
    by_cases hP : c.status = CitStatus.PENDING
    · have hp0 := h1 hP
      split_ifs with hA hB hD <;> simp_all
      omega
    · split_ifs with hA hB hD <;> simp_all
  · unfold updateStatus
    dsimp only
    by_cases hb : (checkOverdue now c && !(c.status == CitStatus.OVERDUE)) = true
    · rw [if_pos hb]
      rw [Bool.and_eq_true] at hb
      have h0 := hb.1
      unfold checkOverdue at h0
      rw [Bool.and_eq_true, Bool.or_eq_true] at h0
      have hdue : c.dueDate < now := by simpa using h0.1
      have hps : c.status = CitStatus.PENDING ∨ c.status = CitStatus.PARTIALLY_PAID := by
        rcases h0.2 with h | h
        · exact Or.inl (by simpa using h)
        · exact Or.inr (by simpa using h)
      rcases hps with hP | hP
      · have hp0 := h1 hP
        have hcond : ¬(0 < c.amountPaid ∧
            c.amountPaid < (recomputeAmounts c).totalAmount) := by omega
        have hnot2 : ¬((preSave now { c with status := CitStatus.OVERDUE }).amountPaid ≥
            (preSave now { c with status := CitStatus.OVERDUE }).totalAmount ∧
            (preSave now { c with status := CitStatus.OVERDUE }).status ≠
              CitStatus.PAID) := by
          intro hx
          have hx1 := hx.1
          rw [hp1, ht1] at hx1
          omega
        rw [if_neg hnot2, hs1, if_neg hcond]
        simp [hP, hdue]
      · have hpp := h2 hP
        by_cases hlt : c.amountPaid < (recomputeAmounts c).totalAmount
        · have hnot2 : ¬((preSave now { c with status := CitStatus.OVERDUE }).amountPaid ≥
              (preSave now { c with status := CitStatus.OVERDUE }).totalAmount ∧
              (preSave now { c with status := CitStatus.OVERDUE }).status ≠
                CitStatus.PAID) := by
            intro hx
            have hx1 := hx.1
            rw [hp1, ht1] at hx1
            omega
          rw [if_neg hnot2, hs1, if_pos ⟨hpp, hlt⟩]
          simp [hP]
        · have hstpv : (preSave now { c with status := CitStatus.OVERDUE }).status =
              CitStatus.OVERDUE := by
            rw [hs1, if_neg (fun hx => hlt hx.2)]
          have hcond2 : (preSave now { c with status := CitStatus.OVERDUE }).amountPaid ≥
              (preSave now { c with status := CitStatus.OVERDUE }).totalAmount ∧
              (preSave now { c with status := CitStatus.OVERDUE }).status ≠
                CitStatus.PAID := by
            refine ⟨?_, ?_⟩
            · rw [hp1, ht1]; omega
            · rw [hstpv]; decide
          rw [if_pos hcond2]
          simp [preSave_paid_write_not_overdue now _, hP]
    · rw [if_neg hb]
      have hrhs : ¬(c.status = CitStatus.PENDING ∧ c.dueDate < now) := by
        rintro ⟨hx, hy⟩
        apply hb
        unfold checkOverdue
        rw [hx]
        simp [hy]
      split_ifs with h3
      · simp [preSave_paid_write_not_overdue now c, hrhs]
      · simp [hno, hrhs]


/-- C8 witness: the concrete 1500-peso `PENDING` citation past its due date
(`now = 200 > dueDate = 100`) is persisted as `OVERDUE` by both
re-evaluations. -/
theorem c8_confirmed_witness :
    ((preSave 200 citPending1500).status = CitStatus.OVERDUE ↔
      citPending1500.status = CitStatus.PENDING ∧ citPending1500.dueDate < 200) ∧
    ((updateStatus 200 citPending1500).status = CitStatus.OVERDUE ↔
      citPending1500.status = CitStatus.PENDING ∧ citPending1500.dueDate < 200) :=
  c8_confirmed 200 citPending1500 (by decide) (by decide) (by decide) (by decide)

/-! ## C2 — progressive tier selection and its fallback -/

theorem jsTruthy_getD_ne_zero (a : Option Int) (h : jsTruthy a = true) :
    a.getD 0 ≠ 0 := by
  cases a with
  | none => simp [jsTruthy] at h
  | some v => simp [jsTruthy] at h; simpa using h

theorem jsOr_ne_zero (a : Option Int) (b : Int) (h : b ≠ 0) : jsOr a b ≠ 0 := by
  cases a with
  | none => simpa [jsOr]
  | some v =>
      simp only [jsOr]
      split_ifs with hv
      · simpa using hv
      · exact h

/-- A schedule defining only `firstOffense = 1500` and
`subsequentOffense = 10000`, the shape on which the claimed fallback order
diverges from the code. -/
def schedFirstSubsequent : OffensePenalty :=
  { firstOffense := 1500, secondOffense := none, thirdOffense := none,
    subsequentOffense := some 10000 }

/-- C2 counterexample: for offense ordinal 2 with `secondOffense` undefined
and `subsequentOffense` defined, the code returns `subsequentOffense`
(10000), not the claimed highest-defined lower tier `firstOffense` (1500):
the selection falls *forward* to `subsequentOffense` before it ever falls
back. -/
theorem c2_counterexample :
    progressiveFineFor schedFirstSubsequent 2 = 10000 ∧
    progressiveFineFor schedFirstSubsequent 2 ≠ schedFirstSubsequent.firstOffense := by
  decide

/-- C2 (amended): the tier map is ordinal 1 → `first`, 2 → `second`,
3 → `third` (the latter two only when the tier is truthy); in every remaining
case the code first takes `subsequentOffense` whenever that is truthy — also
for ordinals 2 and 3 whose own tier is undefined — and only otherwise falls
back through `third || second || first`. The result is never zero for a
schedule whose `firstOffense` is non-zero, and the computation is total
(never an error), a schedule being only required to define `first`. -/
theorem c2_amended (s : OffensePenalty) (n : Nat) :
    (n = 1 → progressiveFineFor s n = s.firstOffense) ∧
    (n = 2 → jsTruthy s.secondOffense = true →
      progressiveFineFor s n = s.secondOffense.getD 0) ∧
    (n = 3 → jsTruthy s.thirdOffense = true →
      progressiveFineFor s n = s.thirdOffense.getD 0) ∧
    (((n = 2 ∧ jsTruthy s.secondOffense = false) ∨
      (n = 3 ∧ jsTruthy s.thirdOffense = false) ∨ n = 0 ∨ 4 ≤ n) →
      jsTruthy s.subsequentOffense = true →
        progressiveFineFor s n = s.subsequentOffense.getD 0) ∧
    (((n = 2 ∧ jsTruthy s.secondOffense = false) ∨
      (n = 3 ∧ jsTruthy s.thirdOffense = false) ∨ n = 0 ∨ 4 ≤ n) →
      jsTruthy s.subsequentOffense = false →
        progressiveFineFor s n =
          jsOr s.thirdOffense (jsOr s.secondOffense s.firstOffense)) ∧
    (s.firstOffense ≠ 0 → progressiveFineFor s n ≠ 0) := by
  refine ⟨?_, ?_, ?_, ?_, ?_, ?_⟩
  · intro h; subst h; rfl
  · intro h ht; subst h
    unfold progressiveFineFor
    simp [ht]
  · intro h ht; subst h
    unfold progressiveFineFor
    simp [ht]
  · intro h ht
    unfold progressiveFineFor
    rcases h with ⟨h, hf⟩ | ⟨h, hf⟩ | h | h
    · subst h; simp [hf, ht]
    · subst h; simp [hf, ht]
    · subst h; simp [ht]
    · simp [show n ≠ 1 by omega, show n ≠ 2 by omega, show n ≠ 3 by omega, ht]
  · intro h hf
    unfold progressiveFineFor
    rcases h with ⟨h, h2⟩ | ⟨h, h2⟩ | h | h
    · subst h; simp [h2, hf]
    · subst h; simp [h2, hf]
    · subst h; simp [hf]
    · simp [show n ≠ 1 by omega, show n ≠ 2 by omega, show n ≠ 3 by omega, hf]
  · intro h0
    unfold progressiveFineFor
    split_ifs with hA hB hC hD
    · exact h0
    · exact jsTruthy_getD_ne_zero _ ((Bool.and_eq_true _ _).mp hB).2
    · exact jsTruthy_getD_ne_zero _ ((Bool.and_eq_true _ _).mp hC).2
    · exact jsTruthy_getD_ne_zero _ hD
    · exact jsOr_ne_zero _ _ (jsOr_ne_zero _ _ h0)

/-- C2 amended witness: on the concrete first/subsequent-only schedule at
ordinal 2 the theorem yields the forward fall-through to `subsequent`. -/
theorem c2_amended_witness :
    progressiveFineFor schedFirstSubsequent 2 =
      schedFirstSubsequent.subsequentOffense.getD 0 :=
  (c2_amended schedFirstSubsequent 2).2.2.2.1 (Or.inl ⟨rfl, by decide⟩) (by decide)

/-! ## C3 — offense ordinals count non-voided prior citations -/

theorem foldl_add_count (l : List Citation) (f : Citation → Nat) (a : Nat) :
    l.foldl (fun acc c => acc + f c) a = a + (l.map f).sum := by
  induction l generalizing a with
  | nil => simp
  | cons x xs ih => simp [ih]; omega

theorem countLines_eq_zero (vid : Nat) (c : Citation)
    (h : c.violations.any (fun v => v.violationId == vid) = false) :
    countLines vid c = 0 := by
  unfold countLines
  rw [List.length_eq_zero, List.filter_eq_nil_iff]
  intro v hv
  rw [List.any_eq_false] at h
  simpa using h v hv

/-- The status-and-void filter of the claim, without the
contains-the-violation conjunct of the Mongo query. -/
def claimFilter (d : Nat) (c : Citation) : Bool :=
  c.driverId == d && !c.isVoid && offenseStatusSet c.status

theorem sum_filtered_eq (db : List Citation) (d vid : Nat) :
    ((db.filter (offenseQueryMatches d vid)).map (countLines vid)).sum =
      ((db.filter (claimFilter d)).map (countLines vid)).sum := by
  induction db with
  | nil => rfl
  | cons x xs ih =>
    by_cases hq : offenseQueryMatches d vid x = true
    · have hQ : claimFilter d x = true := by
        unfold offenseQueryMatches at hq
        unfold claimFilter
        simp only [Bool.and_eq_true] at hq ⊢
        tauto
      simp [List.filter_cons, hq, hQ, ih]
    · have hany : x.violations.any (fun v => v.violationId == vid) = true ∨
          countLines vid x = 0 := by
        cases hA : x.violations.any (fun v => v.violationId == vid)
        · exact Or.inr (countLines_eq_zero vid x hA)
        · exact Or.inl rfl
      by_cases hQ : claimFilter d x = true
      · rcases hany with hA | hz
        · exfalso
          apply hq
          unfold claimFilter at hQ
          unfold offenseQueryMatches
          simp only [Bool.and_eq_true] at hQ ⊢
          tauto
        · simp [List.filter_cons, hq, hQ, ih, hz]
      · simp [List.filter_cons, hq, hQ, ih]

theorem offenseOrdinal_eq (db : List Citation) (d vid : Nat) :
    offenseOrdinal db d vid =
      1 + ((db.filter (claimFilter d)).map (countLines vid)).sum := by
  unfold offenseOrdinal
  rw [foldl_add_count, sum_filtered_eq]
  omega

/-- C3: the offense ordinal recorded on a new progressive citation line for a
violation identity equals 1 plus the sum, over the driver's prior non-voided
citations whose status is in {PAID, PENDING, OVERDUE, PARTIALLY_PAID}, of the
number of lines referencing that identity; and a driver with exactly one
voided and one valid prior citation for the identity gets ordinal 2, not 3. -/
theorem c3_confirmed (db : List Citation) (d vid : Nat) (vt : VehicleType)
    (vr : ViolationRule) (pf : ProgressiveFine) (c1 c2 : Citation)
    (hvr : vr.fineStructure = FineStructure.PROGRESSIVE)
    (hpf : vr.progressiveFine = some pf)
    (h1 : c1.isVoid = true)
    (h2 : c2.isVoid = false) (h3 : c2.driverId = d)
    (h4 : offenseStatusSet c2.status = true) (h5 : countLines vid c2 = 1) :
    (computeViolationItem db d vt vr).offenseCount = offenseOrdinal db d vr.id ∧
    offenseOrdinal db d vid =
      1 + ((db.filter (claimFilter d)).map (countLines vid)).sum ∧
    offenseOrdinal [c1, c2] d vid = 2 := by
  refine ⟨?_, offenseOrdinal_eq db d vid, ?_⟩
  · unfold computeViolationItem
    rw [hvr, hpf]
  · rw [offenseOrdinal_eq]
    have hc1 : claimFilter d c1 = false := by
      unfold claimFilter
      simp [h1]
    have hc2 : claimFilter d c2 = true := by
      unfold claimFilter
      simp [h2, h3, h4]
    simp [List.filter_cons, hc1, hc2, h5]

/-- The spec's escalation schedule `{first:1500, second:3000, third:5000,
subsequent:10000}`. -/
def specTiers : OffensePenalty :=
  { firstOffense := 1500, secondOffense := some 3000, thirdOffense := some 5000,
    subsequentOffense := some 10000 }

/-- A flat single-tier schedule used for the axes the scenario never reads. -/
def flatTiers : OffensePenalty :=
  { firstOffense := 1500 }

/-- The spec's escalation schedule on the private-driver axis. -/
def specSchedule : ProgressiveFine :=
  { privateDriver := specTiers, privateMvOwner := flatTiers,
    forHireDriver := flatTiers, forHireOperator := flatTiers }

/-- A progressive violation rule carrying the spec's schedule. -/
def progressiveRule : ViolationRule :=
  { id := 1, code := "1h", violationGroupId := 1, version := 1,
    title := "Speeding", fineStructure := FineStructure.PROGRESSIVE,
    progressiveFine := some specSchedule, isActive := true, effectiveFrom := 0 }

/-- A voided prior citation of driver 1 with one line for violation 1. -/
def citVoided : Citation :=
  { id := 3, driverId := 1, violations := [lineFine1500], totalAmount := 1500,
    amountPaid := 0, amountDue := 1500, status := CitStatus.VOID, dueDate := 100,
    isVoid := true }

/-- C3 witness: one voided and one valid prior citation for violation 1 give
the next citation ordinal 2. -/
theorem c3_confirmed_witness :
    (computeViolationItem [] 1 VehicleType.PRIVATE progressiveRule).offenseCount =
      offenseOrdinal [] 1 progressiveRule.id ∧
    offenseOrdinal [] 1 1 =
      1 + ((([] : List Citation).filter (claimFilter 1)).map (countLines 1)).sum ∧
    offenseOrdinal [citVoided, citPending1500] 1 1 = 2 :=
  c3_confirmed [] 1 1 VehicleType.PRIVATE progressiveRule specSchedule
    citVoided citPending1500 rfl rfl rfl rfl rfl (by decide) (by decide)

/-! ## C5 — who may submit a contest, and what it does to the citation -/

theorem recomputeAmounts_totalAmount_set_status (c : Citation) (s : CitStatus) :
    (recomputeAmounts { c with status := s }).totalAmount =
      (recomputeAmounts c).totalAmount := by
  rw [recomputeAmounts_totalAmount_expr, recomputeAmounts_totalAmount_expr]

/-- A dismissed citation (contest approved earlier); not voided. -/
def citDismissed : Citation :=
  { id := 2, driverId := 1, violations := [lineFine1500], totalAmount := 1500,
    amountPaid := 0, amountDue := 1500, status := CitStatus.DISMISSED,
    dueDate := 100, isVoid := false }

/-- C5 counterexample: the legacy contest endpoint accepts a `DISMISSED`
citation — its guards check only `isVoid`, `CONTESTED` and `PAID` — and flips
it to `CONTESTED`, while the claim says contesting an already-dismissed
citation fails on every code path. -/
theorem c5_counterexample :
    (contestCitationEndpoint 0 (some citDismissed)).toOption.map Citation.status =
      some CitStatus.CONTESTED := by
  decide

/-- C5 (amended): the `ContestWorkflow` submit path succeeds exactly when the
citation exists, its status is not `PAID`/`VOID`/`DISMISSED`, and no active
contest exists for it (otherwise the duplicate-contest conflict error); on
success the contest starts in `SUBMITTED`, and the citation's saved status is
`CONTESTED` unless `0 < amountPaid < totalAmount`, in which case the save
hook rewrites it to `PARTIALLY_PAID`. The legacy endpoint, however, rejects
only voided, already-`CONTESTED` and `PAID` citations, so a `DISMISSED`
citation can be contested there. -/
theorem c5_amended (now : Int) (c : Citation) (contests : List Contest)
    (newId contestedBy : Nat) :
    ((submitContest now (some c) contests newId contestedBy).toOption.isSome = true ↔
      (c.status ≠ CitStatus.PAID ∧ c.status ≠ CitStatus.VOID ∧
        c.status ≠ CitStatus.DISMISSED ∧
        (contests.any fun ct => ct.citationId == c.id && ct.isActive) = false)) ∧
    (∀ ct c', submitContest now (some c) contests newId contestedBy =
        Except.ok (ct, c') →
      ct.status = ContStatus.SUBMITTED ∧
      c'.status = (if 0 < c.amountPaid ∧
          c.amountPaid < (recomputeAmounts c).totalAmount then
        CitStatus.PARTIALLY_PAID else CitStatus.CONTESTED)) ∧
    (submitContest now none contests newId contestedBy =
      Except.error "Citation not found") ∧
    (c.isVoid = false → c.status ≠ CitStatus.CONTESTED → c.status ≠ CitStatus.PAID →
      contestCitationEndpoint now (some c) = Except.ok (contestCitation now c)) := by
  refine ⟨?_, ?_, rfl, ?_⟩
  · unfold submitContest
    dsimp only
    split_ifs with g1 g2 g3 g4 <;> simp_all [Except.toOption]
  · intro ct c' h
    unfold submitContest at h
    dsimp only at h
    split_ifs at h with g1 g2 g3 g4
    injection h with h
    injection h with hct hc'
    subst hct
    subst hc'
    refine ⟨rfl, ?_⟩
    rw [preSave_status_of_ne_pending now _ (by simp)]
    dsimp only
    rw [recomputeAmounts_totalAmount_set_status]
  · intro hv hcst hpd
    unfold contestCitationEndpoint
    dsimp only
    rw [if_neg (by simp [hv]), if_neg hcst, if_neg hpd]

/-- C5 amended witness: the dismissed citation is rejected by the workflow
path but accepted by the legacy endpoint. -/
theorem c5_amended_witness :
    ((submitContest 0 (some citDismissed) [] 7 1).toOption.isSome = true ↔
      (citDismissed.status ≠ CitStatus.PAID ∧ citDismissed.status ≠ CitStatus.VOID ∧
        citDismissed.status ≠ CitStatus.DISMISSED ∧
        (([] : List Contest).any fun ct =>
          ct.citationId == citDismissed.id && ct.isActive) = false)) ∧
    (∀ ct c', submitContest 0 (some citDismissed) [] 7 1 = Except.ok (ct, c') →
      ct.status = ContStatus.SUBMITTED ∧
      c'.status = (if 0 < citDismissed.amountPaid ∧
          citDismissed.amountPaid < (recomputeAmounts citDismissed).totalAmount then
        CitStatus.PARTIALLY_PAID else CitStatus.CONTESTED)) ∧
    (submitContest 0 none ([] : List Contest) 7 1 =
      Except.error "Citation not found") ∧
    (citDismissed.isVoid = false → citDismissed.status ≠ CitStatus.CONTESTED →
      citDismissed.status ≠ CitStatus.PAID →
      contestCitationEndpoint 0 (some citDismissed) =
        Except.ok (contestCitation 0 citDismissed)) :=
  c5_amended 0 citDismissed [] 7 1

/-! ## C6 — resolving an already-terminal contest -/

/-- A contest withdrawn by its submitter (driver 1) for citation 2. -/
def contestWithdrawn : Contest :=
  { id := 1, citationId := 2, contestedBy := 1, status := ContStatus.WITHDRAWN,
    isActive := true,
    statusHistory := [ContStatus.SUBMITTED, ContStatus.WITHDRAWN] }

/-- C6 counterexample: approving a `WITHDRAWN` contest succeeds — the
terminal-status guard of `approveContest` (and `rejectContest`) checks only
`APPROVED` and `REJECTED` — turning the contest `APPROVED` and dismissing the
citation, while the claim says the attempt must fail with `AlreadyResolved`
and change nothing. -/
theorem c6_counterexample :
    (approveContest 0 (some contestWithdrawn) (some citPending1500)
        "Valid resolution").toOption.map (fun r => r.1.status) =
      some ContStatus.APPROVED ∧
    (approveContest 0 (some contestWithdrawn) (some citPending1500)
        "Valid resolution").toOption.map (fun r => r.2.map Citation.status) =
      some (some CitStatus.DISMISSED) := by
  decide

/-- C6 (amended): approve and reject fail with the already-resolved error
exactly on `APPROVED` and `REJECTED` contests, and withdraw fails on those
and additionally on `WITHDRAWN` (an error result writes nothing, so contest
and citation are left unchanged); but a `WITHDRAWN` contest *can* be approved
or rejected, since the terminal-status guard omits `WITHDRAWN`. -/
theorem c6_amended (now : Int) (ct : Contest) (cit? : Option Citation)
    (res : String) (userId : Nat) (hres : res ≠ "") :
    (ct.status = ContStatus.APPROVED ∨ ct.status = ContStatus.REJECTED →
      approveContest now (some ct) cit? res =
        Except.error "Contest has already been resolved" ∧
      rejectContest now (some ct) cit? res =
        Except.error "Contest has already been resolved" ∧
      (ct.contestedBy = userId →
        withdrawContest now (some ct) cit? userId =
          Except.error "Cannot withdraw a resolved contest")) ∧
    (ct.status = ContStatus.WITHDRAWN →
      (ct.contestedBy = userId →
        withdrawContest now (some ct) cit? userId =
          Except.error "Contest is already withdrawn") ∧
      (approveContest now (some ct) cit? res).toOption.map (fun r => r.1.status) =
        some ContStatus.APPROVED ∧
      (rejectContest now (some ct) cit? res).toOption.map (fun r => r.1.status) =
        some ContStatus.REJECTED) := by
  constructor
  · intro hterm
    refine ⟨?_, ?_, ?_⟩
    · unfold approveContest
      rw [if_neg hres]
      dsimp only
      rw [if_pos hterm]
    · unfold rejectContest
      rw [if_neg hres]
      dsimp only
      rw [if_pos hterm]
    · intro hown
      unfold withdrawContest
      dsimp only
      rw [if_neg (by simp [hown]), if_pos hterm]
  · intro hw
    have hnterm : ¬(ct.status = ContStatus.APPROVED ∨
        ct.status = ContStatus.REJECTED) := by
      simp [hw]
    refine ⟨?_, ?_, ?_⟩
    · intro hown
      unfold withdrawContest
      dsimp only
      rw [if_neg (by simp [hown]), if_neg hnterm, if_pos hw]
    · unfold approveContest
      rw [if_neg hres]
      dsimp only
      rw [if_neg hnterm]
      rfl
    · unfold rejectContest
      rw [if_neg hres]
      dsimp only
      rw [if_neg hnterm]
      rfl

/-- C6 amended witness: the withdrawn contest cannot be withdrawn again, yet
approving and rejecting it both succeed. -/
theorem c6_amended_witness :
    (contestWithdrawn.contestedBy = 1 →
      withdrawContest 0 (some contestWithdrawn) (some citPending1500) 1 =
        Except.error "Contest is already withdrawn") ∧
    (approveContest 0 (some contestWithdrawn) (some citPending1500)
        "Valid resolution").toOption.map (fun r => r.1.status) =
      some ContStatus.APPROVED ∧
    (rejectContest 0 (some contestWithdrawn) (some citPending1500)
        "Valid resolution").toOption.map (fun r => r.1.status) =
      some ContStatus.REJECTED :=
  (c6_amended 0 contestWithdrawn (some citPending1500) "Valid resolution" 1
    (by decide)).2 rfl

/-! ## C7 — no InvalidSchedule error: a zero-fine line is created -/

/-- A fixed-fine schedule defining amounts for both recognised vehicle
classes. -/
def fixedRuleAmounts : FixedFine :=
  { privateDriver := 500, privateMvOwner := 500, forHireDriver := 750,
    forHireOperator := 750 }

/-- A FIXED violation rule carrying that schedule. -/
def fixedRule : ViolationRule :=
  { id := 20, code := "F1", violationGroupId := 3, version := 1,
    title := "Fixed fine rule", fineStructure := FineStructure.FIXED,
    fixedFine := some fixedRuleAmounts, isActive := true, effectiveFrom := 0 }

/-- C7 counterexample: a `GOVERNMENT` vehicle cited under a FIXED rule — the
rule defines no fixed value for that vehicle class — yields a violation line
with `fineAmount = 0` inside the created citation instead of failing with
`InvalidSchedule`; the citation is created with `totalAmount = 0`. -/
theorem c7_counterexample :
    (computeViolationItem [] 1 VehicleType.GOVERNMENT fixedRule).fineAmount = 0 ∧
    (createCitationOp 0 [] 5 1 VehicleType.GOVERNMENT [fixedRule] 100).violations.map
        ViolationItem.fineAmount = [0] ∧
    (createCitationOp 0 [] 5 1 VehicleType.GOVERNMENT [fixedRule] 100).totalAmount = 0 := by
  decide

/-- C7 (amended): the fine computation is a total function — no
`InvalidSchedule` failure exists in the code — and for every FIXED rule
evaluated for a vehicle type other than `PRIVATE` and `FOR_HIRE` it creates
the citation line with `fineAmount = 0`; the line is embedded unchanged in
the citation the creation operation saves. -/
theorem c7_amended (db : List Citation) (d newId : Nat) (vt : VehicleType)
    (v : ViolationRule) (ff : FixedFine) (now due : Int)
    (hF : v.fineStructure = FineStructure.FIXED) (hff : v.fixedFine = some ff)
    (h1 : vt ≠ VehicleType.PRIVATE) (h2 : vt ≠ VehicleType.FOR_HIRE) :
    (computeViolationItem db d vt v).fineAmount = 0 ∧
    (createCitationOp now db newId d vt [v] due).violations =
      [computeViolationItem db d vt v] := by
  constructor
  · unfold computeViolationItem
    rw [hF, hff]
    dsimp only
    unfold fixedFineFor
    rw [if_neg h1, if_neg h2]
  · unfold createCitationOp
    dsimp only
    rw [preSave_violations]
    rfl

/-- C7 amended witness at the concrete GOVERNMENT-vehicle scenario. -/
theorem c7_amended_witness :
    (computeViolationItem [] 1 VehicleType.GOVERNMENT fixedRule).fineAmount = 0 ∧
    (createCitationOp 0 [] 5 1 VehicleType.GOVERNMENT [fixedRule] 100).violations =
      [computeViolationItem [] 1 VehicleType.GOVERNMENT fixedRule] :=
  c7_amended [] 1 5 VehicleType.GOVERNMENT fixedRule fixedRuleAmounts 0 100
    rfl rfl (by decide) (by decide)

/-! ## C9 — what createVersion does with an unfiltered payload -/

/-- C9 counterexample: because `createNewVersion` spreads the raw update
payload *after* the `version: this.version + 1` field, a payload that itself
carries `version` overrides the increment: updating the version-1 rule with
`{version: 99}` produces a new rule with version 99, not 2. -/
theorem c9_counterexample :
    (createNewVersion 50 11 progressiveRule { version := some 99 }).2.version = 99 ∧
    (createNewVersion 50 11 progressiveRule { version := some 99 }).2.version ≠
      progressiveRule.version + 1 := by
  decide

/-- C9 (amended): `createNewVersion` retires the existing rule
(`isActive = false`, `effectiveUntil = now`, `supersededBy` = new id) and
creates a rule in the same group with `effectiveFrom = now`, active and
open-ended, its `version = existingRule.version + 1` *provided the payload
carries no `version` field* (a payload `version` wins, since the spread comes
after the increment); payload values for `violationGroupId`, `supersededBy`,
`effectiveFrom`, `effectiveUntil` and `isActive` are overridden by the
trailing fixed fields, unspecified fields are copied from the predecessor,
and if the old rule was the group's only active open-ended version, the new
rule is the only one afterwards. -/
theorem c9_amended (now : Int) (newId : Nat) (old : ViolationRule)
    (u : RuleUpdates) (rest : List ViolationRule)
    (hrest : ∀ r ∈ rest, ¬(r.isActive = true ∧ r.effectiveUntil = none)) :
    (createNewVersion now newId old u).1.isActive = false ∧
    (createNewVersion now newId old u).1.effectiveUntil = some now ∧
    (createNewVersion now newId old u).1.supersededBy = some newId ∧
    (createNewVersion now newId old u).2.violationGroupId = old.violationGroupId ∧
    (createNewVersion now newId old u).2.effectiveFrom = now ∧
    (createNewVersion now newId old u).2.isActive = true ∧
    (createNewVersion now newId old u).2.effectiveUntil = none ∧
    (createNewVersion now newId old u).2.supersededBy = none ∧
    (u.version = none →
      (createNewVersion now newId old u).2.version = old.version + 1) ∧
    (u.title = none → (createNewVersion now newId old u).2.title = old.title) ∧
    (u.code = none → (createNewVersion now newId old u).2.code = old.code) ∧
    (∀ r ∈ (createNewVersion now newId old u).2 ::
        (createNewVersion now newId old u).1 :: rest,
      r.isActive = true ∧ r.effectiveUntil = none →
        r = (createNewVersion now newId old u).2) := by
  refine ⟨rfl, rfl, rfl, rfl, rfl, rfl, rfl, rfl, ?_, ?_, ?_, ?_⟩
  · intro h
    unfold createNewVersion
    dsimp only
    rw [h]
    rfl
  · intro h
    unfold createNewVersion
    dsimp only
    rw [h]
    rfl
  · intro h
    unfold createNewVersion
    dsimp only
    rw [h]
    rfl
  · intro r hr hact
    rcases List.mem_cons.mp hr with hr | hr
    · exact hr
    rcases List.mem_cons.mp hr with hr | hr
    · exfalso
      have : (createNewVersion now newId old u).1.isActive = false := rfl
      rw [hr] at hact
      rw [this] at hact
      exact Bool.false_ne_true hact.1
    · exact absurd hact (hrest r hr)

/-- C9 amended witness: an empty payload on the version-1 rule produces
version 2 and keeps the single-active-version invariant. -/
theorem c9_amended_witness :
    (createNewVersion 50 11 progressiveRule {}).2.version =
      progressiveRule.version + 1 :=
  (c9_amended 50 11 progressiveRule {} []
    (by simp)).2.2.2.2.2.2.2.2.1 rfl

/-! ## C10 — the payment interface is dead code -/

/-- C10: every invocation of the public payment-recording operation fails:
`citations.helpers.ts` exports no `addPayment`, so the schema method's
delegation to `CitationHelpers.addPayment` calls `undefined` and throws
before touching the document, and the legacy controller's `addPayment` export
— the handler the `POST /:id/payment` route imports — is commented out. An
error result writes nothing, so no call through the payment interface ever
changes `amountPaid`, `paymentHistory`, `amountDue` or `status`. -/
theorem c10_confirmed :
    (∀ (c : Citation) (p : PaymentRecord),
      methodAddPayment c p = Except.error JsCallError.notAFunction) ∧
    citationHelpersAddPayment = none ∧
    citationHelpersExports.contains "addPayment" = false ∧
    citationsControllerExports.contains "addPayment" = false := by
  refine ⟨fun c p => rfl, rfl, ?_, ?_⟩ <;> decide

end ECitation
